import Mathlib

/-!
Verification of the Discord question-answering bot repository.

The repository is a family of near-duplicate Python bots: each receives a
question, derives search terms from it, runs a tiered lookup against a
MongoDB document collection, feeds the hits plus the question to a chat
completion API, splits the returned answer for Discord's message-length
limit, and logs the interaction to a history collection.

This file shallowly embeds the pure logic of those bots — answer
splitting, search-term derivation, tiered-retrieval control flow, the
`ask`-handler control flow, the statistics computation, and the
regex-pattern construction — and proves theorems about the embedding.
Strings are modelled as `List Char`; Python's `str.lower`, `str.split`,
slicing, `zip`, and list comprehensions are translated directly.
-/

/-- Python `str.lower()`, modelled as per-character lowering (the bots
apply it to ASCII questions). -/
def pyLower (s : List Char) : List Char :=
  s.map Char.toLower

/-- The whitespace test used by Python `str.split()` with no arguments. -/
def isPySpace (c : Char) : Bool :=
  c == ' ' || c == '\t' || c == '\n' || c == '\r' ||
    c == Char.ofNat 11 || c == Char.ofNat 12

/-- Worker for `pySplit`; `acc` holds the current word reversed. -/
def pySplitAux : List Char → List Char → List (List Char)
  | [], acc => if acc.isEmpty then [] else [acc.reverse]
  | c :: rest, acc =>
    if isPySpace c then
      if acc.isEmpty then pySplitAux rest [] else acc.reverse :: pySplitAux rest []
    else pySplitAux rest (c :: acc)

/-- Python `str.split()` with no arguments: split on runs of whitespace,
discarding empty pieces. -/
def pySplit (s : List Char) : List (List Char) :=
  pySplitAux s []

/-- Python `range(0, stop, step)` for a positive `step`. -/
def pyRange (stop step : Nat) : List Nat :=
  (List.range ((stop + step - 1) / step)).map (fun j => j * step)

/-- Python slice `s[i : i + n]`. -/
def pySlice (s : List Char) (i n : Nat) : List Char :=
  (s.drop i).take n

/-- The answer-splitting list comprehension of the `ask` handlers:
`[answer[i:i+M] for i in range(0, len(answer), M)]` (with `M = 1990` in
advanced_discord_bot.py / ragapp.py and `M = 1900` in adv_dis.py /
discord_bot.py). -/
def split_parts (M : Nat) (s : List Char) : List (List Char) :=
  (pyRange s.length M).map (fun i => pySlice s i M)

lemma flatten_slices (M : Nat) :
    ∀ (n : Nat) (s : List Char),
      ((List.range n).map (fun j => (s.drop (j * M)).take M)).flatten = s.take (n * M) := by
  intro n
  induction n with
  | zero => intro s; simp
  | succ n ih =>
    intro s
    rw [List.range_succ_eq_map, List.map_cons, List.map_map, List.flatten_cons]
    have hmap :
        (List.range n).map ((fun j => (s.drop (j * M)).take M) ∘ Nat.succ)
          = (List.range n).map (fun j => (((s.drop M).drop (j * M))).take M) := by
      refine List.map_congr_left ?_
      intro j hj
      simp only [Function.comp_apply, List.drop_drop]
      rw [Nat.succ_mul, Nat.add_comm]
    rw [hmap, ih (s.drop M), Nat.succ_mul, Nat.add_comm (n * M) M, List.take_add]
    simp

lemma length_le_ceil_mul {len M : Nat} (hM : 0 < M) :
    len ≤ ((len + M - 1) / M) * M := by
  have h := Nat.div_add_mod (len + M - 1) M
  have h2 : (len + M - 1) % M < M := Nat.mod_lt _ hM
  rw [Nat.mul_comm]
  generalize M * ((len + M - 1) / M) = t at h
  omega

/-- Claim C1: for every answer string and positive split stride `M`
(1990 or 1900 in the `ask` handlers), the parts produced by
`[answer[i:i+M] for i in range(0, len(answer), M)]` all have length at
most `M`, the `j`-th part is the contiguous slice starting at `j * M`
(so the parts are ordered and contiguous), concatenating the parts in
order reproduces the answer exactly for every input length, and a
4000-character answer split with stride 1900 yields exactly the three
parts of lengths 1900, 1900, 200. -/
theorem c1_split_roundtrip (M : Nat) (hM : 0 < M) (s : List Char) :
    (∀ p ∈ split_parts M s, p.length ≤ M) ∧
    (split_parts M s).flatten = s ∧
    (∀ j, j < (split_parts M s).length →
      (split_parts M s)[j]? = some ((s.drop (j * M)).take M)) ∧
    (split_parts 1900 (List.replicate 4000 'a')).map List.length = [1900, 1900, 200] := by
  refine ⟨?_, ?_, ?_, ?_⟩
  · intro p hp
    rcases List.mem_map.1 hp with ⟨i, _, rfl⟩
    simp only [pySlice, List.length_take]
    exact Nat.min_le_left _ _
  · have h1 : split_parts M s
        = (List.range ((s.length + M - 1) / M)).map (fun j => (s.drop (j * M)).take M) := by
      simp [split_parts, pyRange, pySlice, List.map_map]
    rw [h1, flatten_slices M ((s.length + M - 1) / M) s]
    exact List.take_of_length_le (length_le_ceil_mul hM)
  · intro j hj
    have hlen : (split_parts M s).length = (s.length + M - 1) / M := by
      simp [split_parts, pyRange]
    rw [hlen] at hj
    simp [split_parts, pyRange, pySlice, List.getElem?_map, List.getElem?_range hj]
  · have hr : pyRange (List.replicate 4000 'a' : List Char).length 1900 = [0, 1900, 3800] := by
      rw [List.length_replicate]
      decide
    rw [split_parts, hr]
    simp only [List.map_cons, List.map_nil, pySlice, List.length_take,
      List.length_drop, List.length_replicate]
    decide

theorem c1_split_roundtrip_witness :
    0 < 1900 ∧ (split_parts 1900 "abc".data).flatten = "abc".data :=
  ⟨by decide, (c1_split_roundtrip 1900 (by decide) ("abc".data)).2.1⟩

/-- The message-send step of `ask` in advanced_discord_bot.py: the guard
compares the answer length against 2000, but the slicing stride is 1990. -/
def ask_send_messages (answer : List Char) : List (List Char) :=
  if answer.length > 2000 then split_parts 1990 answer else [answer]

/-- Claim C10: in advanced_discord_bot.py's `ask`, an answer whose length
is strictly greater than 1990 but at most 2000 characters does not take
the splitting branch — exactly one message is sent, it is the entire
answer, and it is longer than the 1990-character stride. -/
theorem c10_split_guard_gap (answer : List Char)
    (h1 : 1990 < answer.length) (h2 : answer.length ≤ 2000) :
    ask_send_messages answer = [answer] ∧
    (ask_send_messages answer).length = 1 ∧
    (∀ m ∈ ask_send_messages answer, 1990 < m.length) := by
  have hguard : ¬ answer.length > 2000 := by omega
  refine ⟨if_neg hguard, ?_, ?_⟩
  · rw [ask_send_messages, if_neg hguard]
    rfl
  · intro m hm
    rw [ask_send_messages, if_neg hguard] at hm
    rcases List.mem_singleton.1 hm with rfl
    exact h1

theorem c10_split_guard_gap_witness :
    ask_send_messages (List.replicate 1995 'a') = [List.replicate 1995 'a'] :=
  (c10_split_guard_gap (List.replicate 1995 'a')
    (by simp only [List.length_replicate]; decide)
    (by simp only [List.length_replicate]; decide)).1

/-- Python `f"{a} {b}"` over `zip(words, words[1:])`: the adjacent
word-pair terms. -/
def word_pairs (ws : List (List Char)) : List (List Char) :=
  (ws.zip ws.tail).map (fun p => p.1 ++ ' ' :: p.2)

/-- The tier-1 term derivation of `search_similar_chunks` in
advanced_discord_bot.py:
`[query.lower(), *query.lower().split(), *(f"{a} {b}" for a, b in zip(...))]`. -/
def search_terms (q : List Char) : List (List Char) :=
  pyLower q :: (pySplit (pyLower q) ++ word_pairs (pySplit (pyLower q)))

lemma mem_zip_tail {α : Type} :
    ∀ (l : List α) (a b : α),
      (a, b) ∈ l.zip l.tail ↔ ∃ i, l[i]? = some a ∧ l[i + 1]? = some b := by
  intro l
  induction l with
  | nil => intro a b; simp
  | cons x l ih =>
    intro a b
    cases l with
    | nil => simp
    | cons y l2 =>
      constructor
      · intro hmem
        rcases List.mem_cons.1 hmem with heq | htail
        · obtain ⟨rfl, rfl⟩ := Prod.mk.inj heq
          exact ⟨0, by simp, by simp⟩
        · rcases (ih a b).1 htail with ⟨i, h1, h2⟩
          exact ⟨i + 1, by simpa using h1, by simpa using h2⟩
      · rintro ⟨i, h1, h2⟩
        cases i with
        | zero =>
          rw [List.getElem?_cons_zero, Option.some.injEq] at h1
          rw [List.getElem?_cons_succ, List.getElem?_cons_zero, Option.some.injEq] at h2
          subst h1; subst h2
          exact List.mem_cons_self _ _
        | succ i =>
          rw [List.getElem?_cons_succ] at h1 h2
          exact List.mem_cons_of_mem _ ((ih a b).2 ⟨i, h1, h2⟩)

/-- Claim C9: for every non-empty query string the tier-1 derived term
list consists of exactly the full lower-cased query, each individual
lower-cased word, and each adjacent lower-cased word pair joined by a
single space. -/
theorem c9_search_terms_characterization (q : List Char) (_hq : q ≠ []) (t : List Char) :
    t ∈ search_terms q ↔
      t = pyLower q ∨ t ∈ pySplit (pyLower q) ∨
      ∃ i a b, (pySplit (pyLower q))[i]? = some a ∧
        (pySplit (pyLower q))[i + 1]? = some b ∧ t = a ++ ' ' :: b := by
  simp only [search_terms, List.mem_cons, List.mem_append]
  constructor
  · rintro (rfl | hw | hp)
    · exact Or.inl rfl
    · exact Or.inr (Or.inl hw)
    · rcases List.mem_map.1 hp with ⟨⟨a, b⟩, hab, rfl⟩
      rcases (mem_zip_tail _ a b).1 hab with ⟨i, h1, h2⟩
      exact Or.inr (Or.inr ⟨i, a, b, h1, h2, rfl⟩)
  · rintro (rfl | hw | ⟨i, a, b, h1, h2, rfl⟩)
    · exact Or.inl rfl
    · exact Or.inr (Or.inl hw)
    · refine Or.inr (Or.inr (List.mem_map.2 ⟨(a, b), ?_, rfl⟩))
      exact (mem_zip_tail _ a b).2 ⟨i, h1, h2⟩

theorem c9_search_terms_characterization_witness :
    "ab cd".data ∈ search_terms "ab cd".data ↔
      "ab cd".data = pyLower "ab cd".data ∨
      "ab cd".data ∈ pySplit (pyLower "ab cd".data) ∨
      ∃ i a b, (pySplit (pyLower "ab cd".data))[i]? = some a ∧
        (pySplit (pyLower "ab cd".data))[i + 1]? = some b ∧
        "ab cd".data = a ++ ' ' :: b :=
  c9_search_terms_characterization "ab cd".data (by decide) "ab cd".data

/-- A stored document chunk; `text` is the only field the search code
reads from matched documents. -/
structure Doc where
  text : List Char
deriving DecidableEq

/-- Does `needle` occur at the head of `hay`? -/
def startsWithChars : List Char → List Char → Bool
  | [], _ => true
  | _ :: _, [] => false
  | a :: as, b :: bs => a == b && startsWithChars as bs

/-- Substring containment, the effective meaning of the Mongo filter
`{"text": {"$regex": f"(?i).*{term}.*"}}` for a literal
(metacharacter-free) term once both sides are lower-cased. -/
def containsSub (needle : List Char) : List Char → Bool
  | [] => needle.isEmpty
  | c :: rest => startsWithChars needle (c :: rest) || containsSub needle rest

/-- Whether a document matches the tier-1 `$or` query of
advanced_discord_bot.py: its lower-cased text contains any derived term. -/
def doc_matches (terms : List (List Char)) (d : Doc) : Bool :=
  terms.any (fun t => containsSub t (pyLower d.text))

/-- `docs_collection.find(text_query).limit(k)`: the first `k` documents,
in the store's native order, whose text matches any derived term. -/
def text_tier (store : List Doc) (q : List Char) (k : Nat) : List Doc :=
  (store.filter (fun d => doc_matches (search_terms q) d)).take k

/-- Control-flow skeleton of `search_similar_chunks` in
advanced_discord_bot.py. The store lookup, the embedding call, and the
vector search are oracles whose `Except.error` case is a raised
exception; the whole body sits in one `try`, so any exception makes the
function return `[]`, and the vector tier runs only when the text tier
returned no documents. -/
def search_similar_chunks (textFind : Except Unit (List Doc))
    (embedQuery : Except Unit (List Int))
    (vectorFind : List Int → Except Unit (List Doc)) : List (List Char) :=
  match textFind with
  | .error _ => []
  | .ok results =>
    if results.isEmpty then
      match embedQuery with
      | .error _ => []
      | .ok emb =>
        match vectorFind emb with
        | .error _ => []
        | .ok vres => vres.map Doc.text
    else results.map Doc.text

/-- The result extraction of `DocumentSearch.search` in discord_bot.py:
`[doc.get('text', '') for doc in results if doc.get('text')]`. -/
def ds_extract (rs : List Doc) : List (List Char) :=
  (rs.map Doc.text).filter (fun t => !t.isEmpty)

/-- Control-flow skeleton of `DocumentSearch.search` in discord_bot.py:
exact-phrase text search, term text search, vector search, regex
fallback. Each find oracle (`t1`, `t2`, `t4`) yields the store's full
relevance-ordered match list, and the code-side `.limit(k)` keeps its
first `k` documents; the vector tier's `k` is a parameter of the store's
`knnBeta` call, so its oracle already returns the limited list. The
vector tier has its own `try`/`except`, so its failure falls through to
the regex tier with no results; any other exception is caught by the
outer `try` and yields `[]`. -/
def DocumentSearch_search (k : Nat) (t1 t2 : Except Unit (List Doc))
    (embedQuery : Except Unit (List Int))
    (vectorFind : List Int → Except Unit (List Doc))
    (t4 : Except Unit (List Doc)) : List (List Char) :=
  match t1 with
  | .error _ => []
  | .ok r1 =>
    if (r1.take k).isEmpty then
      match t2 with
      | .error _ => []
      | .ok r2 =>
        if (r2.take k).isEmpty then
          let r3 : List Doc :=
            match embedQuery with
            | .error _ => []
            | .ok emb =>
              match vectorFind emb with
              | .error _ => []
              | .ok v => v
          if r3.isEmpty then
            match t4 with
            | .error _ => []
            | .ok r4 => ds_extract (r4.take k)
          else ds_extract r3
        else ds_extract (r2.take k)
    else ds_extract (r1.take k)

/-- Every tier of advanced_discord_bot.py's search either raises or
yields no documents. -/
def tiers_fruitless (textFind : Except Unit (List Doc))
    (embedQuery : Except Unit (List Int))
    (vectorFind : List Int → Except Unit (List Doc)) : Prop :=
  textFind = .error () ∨
    (textFind = .ok [] ∧
      (embedQuery = .error () ∨
        ∀ emb, embedQuery = .ok emb →
          vectorFind emb = .error () ∨ vectorFind emb = .ok []))

/-- Every tier of discord_bot.py's search either raises or yields no
documents. -/
def ds_tiers_fruitless (t1 t2 : Except Unit (List Doc))
    (embedQuery : Except Unit (List Int))
    (vectorFind : List Int → Except Unit (List Doc))
    (t4 : Except Unit (List Doc)) : Prop :=
  t1 = .error () ∨
    (t1 = .ok [] ∧
      (t2 = .error () ∨
        (t2 = .ok [] ∧
          (embedQuery = .error () ∨
            ∀ emb, embedQuery = .ok emb →
              vectorFind emb = .error () ∨ vectorFind emb = .ok []) ∧
          (t4 = .error () ∨ t4 = .ok []))))

/-- Claim C2: the retrieval functions (`search_similar_chunks` of
advanced_discord_bot.py and `DocumentSearch.search` of discord_bot.py)
never raise — every lookup failure is a caught `Except.error` — and when
every tier's lookup yields no documents, or a tier's query execution or
the embedding call fails, they return the empty list. -/
theorem c2_retrieval_never_raises (textFind : Except Unit (List Doc))
    (embedQuery : Except Unit (List Int))
    (vectorFind : List Int → Except Unit (List Doc))
    (k : Nat) (t1 t2 : Except Unit (List Doc))
    (embedQuery2 : Except Unit (List Int))
    (vectorFind2 : List Int → Except Unit (List Doc))
    (t4 : Except Unit (List Doc)) :
    (tiers_fruitless textFind embedQuery vectorFind →
      search_similar_chunks textFind embedQuery vectorFind = []) ∧
    (ds_tiers_fruitless t1 t2 embedQuery2 vectorFind2 t4 →
      DocumentSearch_search k t1 t2 embedQuery2 vectorFind2 t4 = []) := by
  constructor
  · rintro (rfl | ⟨rfl, herr | hvec⟩)
    · rfl
    · subst herr; rfl
    · cases hq : embedQuery with
      | error u => cases u; rfl
      | ok emb =>
        rcases hvec emb hq with hv | hv <;>
          simp [search_similar_chunks, hv]
  · rintro (rfl | ⟨rfl, herr | ⟨rfl, hv3, ht4⟩⟩)
    · rfl
    · subst herr
      simp [DocumentSearch_search]
    · have h3 : (match embedQuery2 with
        | .error _ => ([] : List Doc)
        | .ok emb =>
          match vectorFind2 emb with
          | .error _ => []
          | .ok v => v) = [] := by
        rcases hv3 with herr | hvec
        · subst herr; rfl
        · cases hq : embedQuery2 with
          | error u => cases u; rfl
          | ok emb => rcases hvec emb hq with hv | hv <;> simp [hv]
      rcases ht4 with h4 | h4 <;>
        simp [DocumentSearch_search, h3, h4, ds_extract]

theorem c2_retrieval_never_raises_witness :
    search_similar_chunks (.error ()) (.error ()) (fun _ => .error ()) = [] ∧
    DocumentSearch_search 5 (.ok []) (.ok []) (.error ()) (fun _ => .error ()) (.ok []) = [] :=
  ⟨(c2_retrieval_never_raises (.error ()) (.error ()) (fun _ => .error ())
      5 (.ok []) (.ok []) (.error ()) (fun _ => .error ()) (.ok [])).1 (Or.inl rfl),
   (c2_retrieval_never_raises (.error ()) (.error ()) (fun _ => .error ())
      5 (.ok []) (.ok []) (.error ()) (fun _ => .error ()) (.ok [])).2
     (Or.inr ⟨rfl, Or.inr ⟨rfl, Or.inl rfl, Or.inr rfl⟩⟩)⟩

/-- A one-chunk store and a query hitting it, used to instantiate the
retrieval theorems. -/
def demo_store : List Doc :=
  [{ text := "MMBM is bullish order flow".data }]

/-- The demo query for the retrieval theorems. -/
def demo_query : List Char :=
  "What is MMBM?".data

lemma isEmpty_false_of_ne_nil {α : Type} {l : List α} (h : l ≠ []) :
    l.isEmpty = false := by
  rcases hl : l with _ | ⟨a, t⟩
  · exact absurd hl h
  · rfl

lemma ds_extract_length_le (rs : List Doc) : (ds_extract rs).length ≤ rs.length := by
  have h := List.length_filter_le (fun t => !t.isEmpty) (rs.map Doc.text)
  simpa [ds_extract] using h

lemma ds_extract_ne_nil {rs : List Doc} (h : ∃ d ∈ rs, d.text ≠ []) :
    ds_extract rs ≠ [] := by
  obtain ⟨d, hd, ht⟩ := h
  have hmem : d.text ∈ ds_extract rs := by
    refine List.mem_filter.2 ⟨List.mem_map.2 ⟨d, hd, rfl⟩, ?_⟩
    cases hdt : d.text with
    | nil => exact absurd hdt ht
    | cons a l => simp [hdt]
  exact List.ne_nil_of_mem hmem

lemma mem_ds_extract {rs : List Doc} {x : List Char} (h : x ∈ ds_extract rs) :
    ∃ d ∈ rs, x = d.text := by
  rcases List.mem_filter.1 h with ⟨hmap, _⟩
  rcases List.mem_map.1 hmap with ⟨d, hd, rfl⟩
  exact ⟨d, hd, rfl⟩

/-- Claim C3: if at least one stored chunk matches the tier-1 query, the
search of advanced_discord_bot.py returns exactly the texts of the first
`k` matching documents — a non-empty list of at most `k` elements, each
drawn from the text tier — and the embedding call and vector search are
never consulted: the result is the same for every embedding/vector
oracle, so tier order is respected and there is no cross-tier
re-ranking. Likewise for discord_bot.py's `DocumentSearch.search`: when
tier 1 yields a document with text among its first `k` matches, the
result is the extracted texts of those first `k` tier-1 documents —
non-empty, of length at most `k`, drawn from tier 1 — independent of
every later tier's oracle; and when tier 1 yields nothing and tier 2 is
the first productive tier, the result is likewise tier 2's first `k`
extracted texts, and the embedding call, vector search and regex tier
are never consulted. -/
theorem c3_first_tier_wins (store : List Doc) (q : List Char) (k : Nat)
    (embedQuery embedQuery' : Except Unit (List Int))
    (vectorFind vectorFind' : List Int → Except Unit (List Doc))
    (hk : 0 < k)
    (hmatch : ∃ d ∈ store, doc_matches (search_terms q) d = true) :
    search_similar_chunks (.ok (text_tier store q k)) embedQuery vectorFind
        = (text_tier store q k).map Doc.text ∧
    search_similar_chunks (.ok (text_tier store q k)) embedQuery vectorFind ≠ [] ∧
    (search_similar_chunks (.ok (text_tier store q k)) embedQuery vectorFind).length ≤ k ∧
    (∀ x ∈ search_similar_chunks (.ok (text_tier store q k)) embedQuery vectorFind,
      ∃ d ∈ store, doc_matches (search_terms q) d = true ∧ x = d.text) ∧
    search_similar_chunks (.ok (text_tier store q k)) embedQuery vectorFind
      = search_similar_chunks (.ok (text_tier store q k)) embedQuery' vectorFind' ∧
    (∀ (r1 : List Doc) (t2 t2' t4 t4' : Except Unit (List Doc))
        (e2 e2' : Except Unit (List Int))
        (v2 v2' : List Int → Except Unit (List Doc)),
      (∃ d ∈ r1.take k, d.text ≠ []) →
      DocumentSearch_search k (.ok r1) t2 e2 v2 t4 = ds_extract (r1.take k) ∧
      DocumentSearch_search k (.ok r1) t2 e2 v2 t4 ≠ [] ∧
      (DocumentSearch_search k (.ok r1) t2 e2 v2 t4).length ≤ k ∧
      (∀ x ∈ DocumentSearch_search k (.ok r1) t2 e2 v2 t4, ∃ d ∈ r1, x = d.text) ∧
      DocumentSearch_search k (.ok r1) t2 e2 v2 t4
        = DocumentSearch_search k (.ok r1) t2' e2' v2' t4') ∧
    (∀ (r2 : List Doc) (t4 t4' : Except Unit (List Doc))
        (e2 e2' : Except Unit (List Int))
        (v2 v2' : List Int → Except Unit (List Doc)),
      (∃ d ∈ r2.take k, d.text ≠ []) →
      DocumentSearch_search k (.ok []) (.ok r2) e2 v2 t4 = ds_extract (r2.take k) ∧
      DocumentSearch_search k (.ok []) (.ok r2) e2 v2 t4 ≠ [] ∧
      (DocumentSearch_search k (.ok []) (.ok r2) e2 v2 t4).length ≤ k ∧
      (∀ x ∈ DocumentSearch_search k (.ok []) (.ok r2) e2 v2 t4, ∃ d ∈ r2, x = d.text) ∧
      DocumentSearch_search k (.ok []) (.ok r2) e2 v2 t4
        = DocumentSearch_search k (.ok []) (.ok r2) e2' v2' t4') := by
  have hne : text_tier store q k ≠ [] := by
    obtain ⟨d, hd, hm⟩ := hmatch
    have hmem : d ∈ store.filter (fun d => doc_matches (search_terms q) d) :=
      List.mem_filter.2 ⟨hd, hm⟩
    intro hcontra
    rcases List.take_eq_nil_iff.1 hcontra with hk0 | hf
    · omega
    · rw [hf] at hmem
      exact List.not_mem_nil d hmem
  have hempty : (text_tier store q k).isEmpty = false := by
    rcases h : text_tier store q k with _ | ⟨a, l⟩
    · exact absurd h hne
    · rfl
  have hrun : search_similar_chunks (.ok (text_tier store q k)) embedQuery vectorFind
      = (text_tier store q k).map Doc.text := by
    simp [search_similar_chunks, hempty]
  refine ⟨hrun, ?_, ?_, ?_, ?_, ?_, ?_⟩
  · rw [hrun]
    intro hmapnil
    exact hne (List.map_eq_nil_iff.1 hmapnil)
  · rw [hrun, List.length_map]
    simp only [text_tier, List.length_take]
    exact Nat.min_le_left _ _
  · rw [hrun]
    intro x hx
    rcases List.mem_map.1 hx with ⟨d, hd, rfl⟩
    have hd2 : d ∈ store.filter (fun d => doc_matches (search_terms q) d) :=
      List.mem_of_mem_take hd
    rcases List.mem_filter.1 hd2 with ⟨hds, hdm⟩
    exact ⟨d, hds, hdm, rfl⟩
  · rw [hrun]
    simp [search_similar_chunks, hempty]
  · intro r1 t2 t2' t4 t4' e2 e2' v2 v2' hex
    have htk : (r1.take k).isEmpty = false := by
      obtain ⟨d, hd, _⟩ := hex
      exact isEmpty_false_of_ne_nil (List.ne_nil_of_mem hd)
    have hrun1 : DocumentSearch_search k (.ok r1) t2 e2 v2 t4
        = ds_extract (r1.take k) := by
      simp [DocumentSearch_search, htk]
    refine ⟨hrun1, ?_, ?_, ?_, ?_⟩
    · rw [hrun1]
      exact ds_extract_ne_nil hex
    · rw [hrun1]
      calc (ds_extract (r1.take k)).length
          ≤ (r1.take k).length := ds_extract_length_le _
        _ ≤ k := by
            simp only [List.length_take]
            exact Nat.min_le_left _ _
    · rw [hrun1]
      intro x hx
      rcases mem_ds_extract hx with ⟨d, hd, rfl⟩
      exact ⟨d, List.mem_of_mem_take hd, rfl⟩
    · simp [DocumentSearch_search, htk]
  · intro r2 t4 t4' e2 e2' v2 v2' hex
    have htk : (r2.take k).isEmpty = false := by
      obtain ⟨d, hd, _⟩ := hex
      exact isEmpty_false_of_ne_nil (List.ne_nil_of_mem hd)
    have hrun2 : DocumentSearch_search k (.ok []) (.ok r2) e2 v2 t4
        = ds_extract (r2.take k) := by
      simp [DocumentSearch_search, htk]
    refine ⟨hrun2, ?_, ?_, ?_, ?_⟩
    · rw [hrun2]
      exact ds_extract_ne_nil hex
    · rw [hrun2]
      calc (ds_extract (r2.take k)).length
          ≤ (r2.take k).length := ds_extract_length_le _
        _ ≤ k := by
            simp only [List.length_take]
            exact Nat.min_le_left _ _
    · rw [hrun2]
      intro x hx
      rcases mem_ds_extract hx with ⟨d, hd, rfl⟩
      exact ⟨d, List.mem_of_mem_take hd, rfl⟩
    · simp [DocumentSearch_search, htk]

theorem c3_first_tier_wins_witness :
    search_similar_chunks (.ok (text_tier demo_store demo_query 5))
        (Except.error ()) (fun _ => Except.error ()) ≠ [] :=
  (c3_first_tier_wins demo_store demo_query 5
    (Except.error ()) (Except.error ())
    (fun _ => Except.error ()) (fun _ => Except.error ())
    (by decide) (by decide)).2.1

/-- Observable outcome of one `ask` invocation: whether the Completion
Service was called, the follow-up messages sent, and the
(answer, success) history records written. -/
structure AskTrace where
  completionCalled : Bool
  followups : List (List Char)
  history : List (List Char × Bool)
deriving DecidableEq

/-- The canned no-information reply of the `ask` handlers. -/
def canned_message : List Char :=
  "I couldn\x27t find relevant information. Please try rephrasing your question.".data

/-- The `ask` handler of advanced_discord_bot.py, as a function of the
retrieval result and the Completion Service outcome (`Except.error e`
models a raised exception with message `e`). Empty retrieval short-
circuits to the canned reply plus a success=false record; a completion
exception is caught, and `"Error: " + str(e)` is both sent to the user
and recorded with success=false. -/
def ask_advanced (chunks : List (List Char))
    (completion : Except (List Char) (List Char)) : AskTrace :=
  if chunks.isEmpty then
    { completionCalled := false
      followups := [canned_message]
      history := [(canned_message, false)] }
  else
    match completion with
    | .ok answer =>
      { completionCalled := true
        followups := ask_send_messages answer
        history := [(answer, true)] }
    | .error e =>
      { completionCalled := true
        followups := ["Error: ".data ++ e]
        history := [("Error: ".data ++ e, false)] }

/-- The `ask` handler of ragapp.py: it never inspects whether the
retrieval result is empty, always calls the Completion Service, never
writes a history record, and on a completion exception sends
`"An error occurred: " + str(e)`. -/
def ask_ragapp (_chunks : List (List Char))
    (completion : Except (List Char) (List Char)) : AskTrace :=
  match completion with
  | .ok answer =>
    { completionCalled := true
      followups := ask_send_messages answer
      history := [] }
  | .error e =>
    { completionCalled := true
      followups := ["An error occurred: ".data ++ e]
      history := [] }

/-- Claim C4 (counterexample): ragapp.py's `ask` — one of the two cited
handlers — violates the claim: with an empty retrieval result it still
calls the Completion Service and writes no history record at all. -/
theorem c4_ragapp_calls_composer_on_empty :
    (ask_ragapp [] (Except.ok "hello".data)).completionCalled = true ∧
    (ask_ragapp [] (Except.ok "hello".data)).history = [] :=
  ⟨rfl, rfl⟩

/-- Claim C4 (amended): in advanced_discord_bot.py's `ask`, whenever
retrieval returns the empty list the Completion Service is not called,
the canned no-information reply is the only follow-up, and exactly one
history record — the canned reply with success=false — is written;
ragapp.py's `ask`, by contrast, always calls the Completion Service and
writes no history record. -/
theorem c4_empty_retrieval_short_circuit
    (completion : Except (List Char) (List Char)) :
    (ask_advanced [] completion).completionCalled = false ∧
    (ask_advanced [] completion).followups = [canned_message] ∧
    (ask_advanced [] completion).history = [(canned_message, false)] :=
  ⟨rfl, rfl, rfl⟩

/-- Claim C8 (counterexample): in advanced_discord_bot.py's `ask`, the
reply sent after a Completion Service exception is `"Error: " + str(e)`
— it embeds the raw exception text, and differs between two different
exceptions, so it is not a generic failure string. -/
theorem c8_error_reply_embeds_exception :
    (ask_advanced ["chunk".data]
        (Except.error "Connection timed out".data)).followups
      = ["Error: ".data ++ "Connection timed out".data] ∧
    (ask_advanced ["chunk".data] (Except.error "quota exceeded".data)).followups
      ≠ (ask_advanced ["chunk".data]
          (Except.error "Connection timed out".data)).followups := by
  exact ⟨rfl, by decide⟩

/-- Claim C8 (amended): a Completion Service exception in
advanced_discord_bot.py's `ask` is caught — the handler still replies
and records — but the single reply is `"Error: " + str(e)` (raw
exception text, not a generic string), the single history record carries
that text with success=false, and no record with success=true is
written; ragapp.py's `ask` likewise catches the exception, replies
`"An error occurred: " + str(e)`, and writes no history record. -/
theorem c8_completion_error_caught (chunks : List (List Char)) (e : List Char)
    (h : chunks ≠ []) :
    (ask_advanced chunks (Except.error e)).followups = ["Error: ".data ++ e] ∧
    (ask_advanced chunks (Except.error e)).history = [("Error: ".data ++ e, false)] ∧
    (∀ r ∈ (ask_advanced chunks (Except.error e)).history, r.2 = false) ∧
    (ask_ragapp chunks (Except.error e)).followups
      = ["An error occurred: ".data ++ e] ∧
    (ask_ragapp chunks (Except.error e)).history = [] := by
  have hempty : chunks.isEmpty = false := by
    cases chunks with
    | nil => exact absurd rfl h
    | cons c cs => rfl
  refine ⟨?_, ?_, ?_, rfl, rfl⟩
  · simp [ask_advanced, hempty]
  · simp [ask_advanced, hempty]
  · intro r hr
    simp only [ask_advanced, hempty, Bool.false_eq_true, if_false] at hr
    rcases List.mem_singleton.1 hr with rfl
    rfl

theorem c8_completion_error_caught_witness :
    (ask_advanced ["c".data] (Except.error "boom".data)).followups
      = ["Error: ".data ++ "boom".data] :=
  (c8_completion_error_caught ["c".data] "boom".data (by decide)).1

/-- The `ask` handler of discord_bot.py as a function of the retrieval
result and the Completion Service outcome. The handler defers first
(the deferral succeeds, so `interaction.response.is_done()` is true from
then on); `DocumentSearch.search` never raises; `generate_response`
re-raises completion errors; the outer `except` sends its apology only
when `not interaction.response.is_done()`. The result is the pair
(was the interaction deferred?, user-visible messages sent). -/
def ask_discord_bot (searchResult : List (List Char))
    (completion : Except (List Char) (List Char)) : Bool × List (List Char) :=
  let deferred := true
  if searchResult.isEmpty then (deferred, [canned_message])
  else
    match completion with
    | .ok answer =>
      (deferred, if answer.length > 1900 then split_parts 1900 answer else [answer])
    | .error _ =>
      (deferred,
        if deferred then []
        else ["An error occurred while processing your question".data])

/-- Claim C5 (code bug): when retrieval succeeds and the Completion
Service raises after the interaction was deferred, discord_bot.py's
`ask` sends no message at all — the `except` branch is guarded by
`if not interaction.response.is_done()`, which is false after `defer()`
— leaving the interaction with a bare deferral and zero user-visible
responses, contrary to the exactly-one-response policy. -/
theorem c5_deferred_error_sends_nothing :
    ask_discord_bot ["MMBM is bullish order flow".data]
        (Except.error "Request timed out".data)
      = (true, []) :=
  rfl

/-- A qa_history record, as read by the `stats` command of
adv_discord_bot.py / discord_bot1.py. -/
structure QARecord where
  timestamp : Nat
  guild_id : Nat
  username : List Char
  question : List Char
  success : Bool
deriving DecidableEq

/-- `qa_collection.find({'guild_id': gid})`: the records of one server,
in store order. -/
def qa_scoped (db : List QARecord) (gid : Nat) : List QARecord :=
  db.filter (fun r => r.guild_id == gid)

/-- `qa_collection.count_documents({'guild_id': gid})`. -/
def qa_total (db : List QARecord) (gid : Nat) : Nat :=
  (qa_scoped db gid).length

/-- `qa_collection.count_documents({'guild_id': gid, 'success': True})`. -/
def qa_successful (db : List QARecord) (gid : Nat) : Nat :=
  (db.filter (fun r => r.guild_id == gid && r.success)).length

/-- The success-rate expression of the `stats` command:
`successful/total*100 if total > 0 else 0`, over the rationals. -/
def qa_success_rate (db : List QARecord) (gid : Nat) : ℚ :=
  if qa_total db gid > 0 then
    (qa_successful db gid : ℚ) / (qa_total db gid : ℚ) * 100
  else 0

/-- `find({'guild_id': gid}).sort('timestamp', -1).limit(5)`: the scoped
records sorted by timestamp descending, first five. -/
def qa_recent (db : List QARecord) (gid : Nat) : List QARecord :=
  ((qa_scoped db gid).mergeSort
    (fun a b => decide (b.timestamp ≤ a.timestamp))).take 5

/-- Claim C7: on a scope with zero history records the stats computation
returns a success rate of 0 with no division and an empty recent list;
on a scope with records it returns `successful/total*100` and a recent
list of at most five records, sorted by timestamp descending, drawn from
the scope, and together with the dropped remainder — none of which is
newer — forming a permutation of the whole scope. -/
theorem c7_stats_zero_guard (db : List QARecord) (gid : Nat) :
    (qa_total db gid = 0 →
      qa_success_rate db gid = 0 ∧ qa_recent db gid = []) ∧
    (0 < qa_total db gid →
      qa_success_rate db gid
        = (qa_successful db gid : ℚ) / (qa_total db gid : ℚ) * 100) ∧
    (qa_recent db gid).length ≤ 5 ∧
    List.Pairwise (fun a b => b.timestamp ≤ a.timestamp) (qa_recent db gid) ∧
    (∀ r ∈ qa_recent db gid, r ∈ qa_scoped db gid) ∧
    (∃ rest, (qa_recent db gid ++ rest).Perm (qa_scoped db gid) ∧
      ∀ r ∈ qa_recent db gid, ∀ s ∈ rest, s.timestamp ≤ r.timestamp) := by
  have htrans : ∀ a b c : QARecord,
      decide (b.timestamp ≤ a.timestamp) →
      decide (c.timestamp ≤ b.timestamp) →
      decide (c.timestamp ≤ a.timestamp) := by
    intro a b c h1 h2
    simp only [decide_eq_true_eq] at h1 h2 ⊢
    omega
  have htotal : ∀ a b : QARecord,
      decide (b.timestamp ≤ a.timestamp) || decide (a.timestamp ≤ b.timestamp) := by
    intro a b
    simp only [Bool.or_eq_true, decide_eq_true_eq]
    exact Nat.le_total _ _
  have hsorted := @List.sorted_mergeSort QARecord
    (fun a b : QARecord => decide (b.timestamp ≤ a.timestamp))
    htrans htotal (qa_scoped db gid)
  refine ⟨?_, ?_, ?_, ?_, ?_, ?_⟩
  · intro h0
    have hnil : qa_scoped db gid = [] := List.length_eq_zero.1 h0
    constructor
    · rw [qa_success_rate, if_neg]
      omega
    · rw [qa_recent, hnil]
      simp
  · intro hpos
    rw [qa_success_rate, if_pos hpos]
  · rw [qa_recent]
    simp only [List.length_take]
    exact Nat.min_le_left _ _
  · have hpw := List.Pairwise.sublist (List.take_sublist 5 _) hsorted
    refine hpw.imp ?_
    intro a b hab
    exact of_decide_eq_true hab
  · intro r hr
    rw [qa_recent] at hr
    exact (List.mergeSort_perm _ _).mem_iff.1 (List.mem_of_mem_take hr)
  · refine ⟨((qa_scoped db gid).mergeSort
      (fun a b => decide (b.timestamp ≤ a.timestamp))).drop 5, ?_, ?_⟩
    · rw [qa_recent, List.take_append_drop]
      exact List.mergeSort_perm _ _
    · intro r hr s hs
      rw [qa_recent] at hr
      have hcross := (List.pairwise_append.1
        (by rw [List.take_append_drop]; exact hsorted)).2.2 r hr s hs
      exact of_decide_eq_true hcross

/-- A concrete history record to instantiate the stats theorem. -/
def demo_record : QARecord :=
  { timestamp := 3, guild_id := 7, username := "alice".data,
    question := "What is MMBM?".data, success := true }

theorem c7_stats_zero_guard_witness :
    (qa_success_rate [] 0 = 0 ∧ qa_recent [] 0 = []) ∧
    qa_success_rate [demo_record] 7
      = (qa_successful [demo_record] 7 : ℚ) / (qa_total [demo_record] 7 : ℚ) * 100 :=
  ⟨(c7_stats_zero_guard [] 0).1 (by decide),
   (c7_stats_zero_guard [demo_record] 7).2.1 (by decide)⟩

/-- The characters Python's `re.escape` prefixes with a backslash
(special regex characters and whitespace). -/
def reSpecial (c : Char) : Bool :=
  c == '(' || c == ')' || c == '[' || c == ']' ||
    c == Char.ofNat 123 || c == Char.ofNat 125 ||
    c == '?' || c == '*' || c == '+' || c == '-' ||
    c == '|' || c == '^' || c == '$' || c == '\\' ||
    c == '.' || c == '&' || c == '~' || c == '#' ||
    c == ' ' || c == '\t' || c == '\n' || c == '\r' ||
    c == Char.ofNat 11 || c == Char.ofNat 12

/-- Python `re.escape`: prefix every special character with a backslash. -/
def pyReEscape : List Char → List Char
  | [] => []
  | c :: rest =>
    if reSpecial c then '\\' :: c :: pyReEscape rest else c :: pyReEscape rest

/-- One-pass regex well-formedness scanner: tracks a pending backslash
escape and the number of open groups; `none` means a malformed pattern
(unmatched `)` or dangling backslash), `some n` the open-group count at
the end. -/
def parenScan : List Char → Bool → Nat → Option Nat
  | [], esc, n => if esc then none else some n
  | _ :: rest, true, n => parenScan rest false n
  | c :: rest, false, n =>
    if c = '\\' then parenScan rest true n
    else if c = '(' then parenScan rest false (n + 1)
    else if c = ')' then
      match n with
      | 0 => none
      | m + 1 => parenScan rest false m
    else parenScan rest false n

/-- A pattern is group-well-formed when the scan ends cleanly with all
groups closed. -/
def paren_ok (s : List Char) : Bool :=
  parenScan s false 0 == some 0

/-- The tier-1 pattern of advanced_discord_bot.py:
`f"(?i).*{term}.*"` — the term is interpolated with no escaping. -/
def adv_pattern (term : List Char) : List Char :=
  "(?i).*".data ++ term ++ ".*".data

/-- The seven patterns `DatabaseManager.search_similar_chunks` of
discord_bot1.py builds per term, each interpolating `re.escape(term)`. -/
def d1_patterns (term : List Char) : List (List Char) :=
  ["(?i)Definition:.*".data ++ pyReEscape term,
   "(?i)".data ++ pyReEscape term ++ ".*definition".data,
   "(?i)".data ++ pyReEscape term ++ "[\\s]*:[^\\n]*".data,
   "(?i)• ".data ++ pyReEscape term ++ ":".data,
   "(?i)FAQ.*".data ++ pyReEscape term,
   "(?i)Question:.*".data ++ pyReEscape term,
   "(?i)\\b".data ++ pyReEscape term ++ "\\b".data]

lemma parenScan_cons_esc (c : Char) (rest : List Char) (n : Nat) :
    parenScan (c :: rest) true n = parenScan rest false n :=
  rfl

lemma parenScan_cons (c : Char) (rest : List Char) (n : Nat) :
    parenScan (c :: rest) false n =
      if c = '\\' then parenScan rest true n
      else if c = '(' then parenScan rest false (n + 1)
      else if c = ')' then
        match n with
        | 0 => none
        | m + 1 => parenScan rest false m
      else parenScan rest false n :=
  rfl

lemma parenScan_append :
    ∀ (s r : List Char) (esc : Bool) (n m : Nat),
      parenScan s esc n = some m → parenScan (s ++ r) esc n = parenScan r false m := by
  intro s
  induction s with
  | nil =>
    intro r esc n m h
    cases esc with
    | true => simp [parenScan] at h
    | false =>
      simp [parenScan] at h
      subst h
      simp
  | cons c cs ih =>
    intro r esc n m h
    cases esc with
    | true =>
      rw [parenScan_cons_esc] at h
      rw [List.cons_append, parenScan_cons_esc]
      exact ih r false n m h
    | false =>
      rw [parenScan_cons] at h
      rw [List.cons_append, parenScan_cons]
      by_cases h1 : c = '\\'
      · rw [if_pos h1] at h ⊢
        exact ih r true n m h
      · rw [if_neg h1] at h ⊢
        by_cases h2 : c = '('
        · rw [if_pos h2] at h ⊢
          exact ih r false (n + 1) m h
        · rw [if_neg h2] at h ⊢
          by_cases h3 : c = ')'
          · rw [if_pos h3] at h ⊢
            cases n with
            | zero => simp at h
            | succ k => exact ih r false k m h
          · rw [if_neg h3] at h ⊢
            exact ih r false n m h

lemma parenScan_escape (t : List Char) :
    ∀ (r : List Char) (n : Nat),
      parenScan (pyReEscape t ++ r) false n = parenScan r false n := by
  induction t with
  | nil => intro r n; rfl
  | cons c cs ih =>
    intro r n
    by_cases hc : reSpecial c = true
    · rw [pyReEscape, if_pos hc, List.cons_append, List.cons_append,
        parenScan_cons, if_pos rfl, parenScan_cons_esc]
      exact ih r n
    · have hc' : reSpecial c = false := by
        cases hcc : reSpecial c with
        | true => exact absurd hcc hc
        | false => rfl
      have h1 : ¬ c = '\\' := by
        intro e; rw [e] at hc'; exact absurd hc' (by decide)
      have h2 : ¬ c = '(' := by
        intro e; rw [e] at hc'; exact absurd hc' (by decide)
      have h3 : ¬ c = ')' := by
        intro e; rw [e] at hc'; exact absurd hc' (by decide)
      rw [pyReEscape, if_neg hc, List.cons_append, parenScan_cons,
        if_neg h1, if_neg h2, if_neg h3]
      exact ih r n

/-- Claim C6 (counterexample): advanced_discord_bot.py interpolates the
derived terms into `f"(?i).*{term}.*"` with no escaping, so the query
`"("` — whose derived term set contains `"("` — produces the pattern
`(?i).*(.*`, which has an unmatched group and is malformed. -/
theorem c6_unescaped_metachar_pattern :
    "(".data ∈ search_terms "(".data ∧
    adv_pattern "(".data = "(?i).*(.*".data ∧
    paren_ok (adv_pattern "(".data) = false := by
  refine ⟨by decide, by decide, by decide⟩

/-- Claim C6 (amended): only discord_bot1.py escapes the derived terms —
every one of its seven patterns applies `re.escape(term)` and is
group-well-formed for every term — whereas advanced_discord_bot.py
(and the regex tiers of discord_bot.py / adv_dis.py) interpolate the
raw term, so a query with regex metacharacters yields a malformed
pattern there. -/
theorem c6_escaped_patterns_wellformed (term : List Char) :
    ∀ p ∈ d1_patterns term, paren_ok p = true := by
  have wrap : ∀ (pre suf t : List Char),
      parenScan pre false 0 = some 0 → parenScan suf false 0 = some 0 →
      paren_ok (pre ++ pyReEscape t ++ suf) = true := by
    intro pre suf t hpre hsuf
    rw [paren_ok, List.append_assoc, parenScan_append pre _ false 0 0 hpre,
      parenScan_escape, hsuf]
    rfl
  have wrap2 : ∀ (pre t : List Char),
      parenScan pre false 0 = some 0 →
      paren_ok (pre ++ pyReEscape t) = true := by
    intro pre t hpre
    have h := wrap pre [] t hpre (by decide)
    rwa [List.append_assoc, List.append_nil] at h
  intro p hp
  simp only [d1_patterns, List.mem_cons, List.not_mem_nil, or_false] at hp
  rcases hp with rfl | rfl | rfl | rfl | rfl | rfl | rfl
  · exact wrap2 _ _ (by decide)
  · exact wrap _ _ _ (by decide) (by decide)
  · exact wrap _ _ _ (by decide) (by decide)
  · exact wrap _ _ _ (by decide) (by decide)
  · exact wrap2 _ _ (by decide)
  · exact wrap2 _ _ (by decide)
  · exact wrap _ _ _ (by decide) (by decide)

theorem c6_escaped_patterns_wellformed_witness :
    paren_ok ("(?i)Definition:.*".data ++ pyReEscape "(".data) = true :=
  c6_escaped_patterns_wellformed "(".data _ (by decide)
